import Mathlib

/-!
Verification development for the Cloudcore SaaS sign-up / email-verification
backend (Node.js + Express + Mongoose).  The two HTTP handlers
(`POST /api/signup`, `GET /api/verify-email`) from `backend/server.js` and the
User schema with its pre-save hashing hook from `backend/module/User.js` are
shallowly embedded as pure Lean functions.  The database is a list of user
records (document order = insertion order, matching the un-indexed scan
order used by `findOne`), and the external effects (bcrypt hashing, the
random bytes of `crypto.randomBytes(32)`, the mail transporter outcome, the
clock) are passed in as explicit parameters.
-/

set_option maxRecDepth 4000

/-- A persisted user document, per the Mongoose `UserSchema` in
`backend/module/User.js`.  `password` holds whatever string is stored (the
plaintext before the pre-save hook runs, the hash afterwards).
`verificationToken` is `none` when the path is unset/absent (the schema is
`sparse`, absence is "no value", not the empty string).  `createdAt` is an
abstract timestamp. -/
structure User where
  fullName : String
  email : String
  password : String
  isVerified : Bool
  verificationToken : Option String
  createdAt : Nat
deriving DecidableEq

/-- JavaScript's `.` regex atom: any character except a line terminator
(`\n`, `\r`, U+2028, U+2029). -/
def jsDot (c : Char) : Bool :=
  !(c = '\n' || c = '\r' || c = Char.ofNat 0x2028 || c = Char.ofNat 0x2029)

/-- `/.+@.+\..+/.test(s)`: the unanchored email pattern used both by the
sign-up handler (`server.js`) and the schema `match` validator (`User.js`).
The string matches iff some substring has the shape `X@Y.Z` with `X`, `Y`,
`Z` non-empty runs of non-line-terminator characters; minimal such `X` and
`Z` are single characters around the chosen `@` and `.`. -/
def emailRegexTest (s : String) : Bool :=
  let cs := s.data
  let n := cs.length
  (List.range n).any fun i =>
    decide (1 ≤ i) && decide (cs.getD i ' ' = '@') && jsDot (cs.getD (i - 1) ' ') &&
    ((List.range n).any fun j =>
      decide (i + 2 ≤ j) && decide (j + 2 ≤ n) && decide (cs.getD j ' ' = '.') &&
      jsDot (cs.getD (j + 1) ' ') &&
      ((List.range' (i + 1) (j - (i + 1))).all fun k => jsDot (cs.getD k ' ')))

/-- JavaScript's `String.prototype.trim()`: drop leading and trailing
whitespace.  (Implemented structurally over the character list so that the
kernel can evaluate it; `Char.isWhitespace` stands in for the JS whitespace
class — they agree on ASCII input.) -/
def jsTrim (s : String) : String :=
  String.mk (((s.data.dropWhile Char.isWhitespace).reverse.dropWhile Char.isWhitespace).reverse)

/-- JavaScript's `String.prototype.toLowerCase()` (ASCII case folding,
structurally over the character list). -/
def jsToLower (s : String) : String :=
  String.mk (s.data.map Char.toLower)

/-- The Mongoose setter pipeline of the `email` path: `lowercase: true` and
`trim: true` (applied when the value is set on the document, and by
Mongoose ≥ 6 also to query filter values). -/
def emailSetter (s : String) : String := jsToLower (jsTrim s)

/-- One hex digit, lowercase, as produced by Node's `Buffer.toString('hex')`. -/
def hexDigit (n : Nat) : Char :=
  if n < 10 then Char.ofNat (48 + n) else Char.ofNat (87 + n)

/-- Hex-encode a byte string: `crypto.randomBytes(32).toString('hex')` is
`bytesToHex rnd` for the 32 random bytes `rnd` supplied by the kernel. -/
def bytesToHex (bs : List (Fin 256)) : String :=
  String.mk (bs.foldr (fun b acc => hexDigit (b.val / 16) :: hexDigit (b.val % 16) :: acc) [])

/-- A lowercase hexadecimal character. -/
def isHexChar (c : Char) : Bool :=
  ('0' ≤ c && c ≤ '9') || ('a' ≤ c && c ≤ 'f')

/-- The `UserSchema.pre('save')` hook of `backend/module/User.js`: hash the
password (bcrypt, 10 salt rounds — modelled by the abstract `hash`
parameter) iff `this.isModified('password')`.  A newly constructed document
(`orig = none`) has every path modified; for a document loaded from the
database (`orig = some o`) the password path is modified iff its value
changed since load. -/
def preSave (hash : String → String) (orig : Option User) (cur : User) : User :=
  let modified := match orig with
    | none => true
    | some o => o.password != cur.password
  if modified then { cur with password := hash cur.password } else cur

/-- The schema validation that Mongoose runs as a built-in `pre('save')`
hook — before the user-defined hashing hook, so `minlength` sees the
plaintext.  Returns the `path: message` entries of the failing paths in
schema declaration order; for each path `required` is checked first (a
string fails `required` when absent or empty) and the remaining validators
(`match`, `minlength`) only run on a present value. -/
def userValidationErrors (u : User) : List String :=
  (if u.fullName = "" then ["fullName: Full name is required"] else []) ++
  (if u.email = "" then ["email: Email is required"]
   else if !emailRegexTest u.email then ["email: Please enter a valid email address"]
   else []) ++
  (if u.password = "" then ["password: Password is required"]
   else if u.password.length < 8 then ["password: Password must be at least 8 characters long"]
   else [])

/-- The `message` of a Mongoose `ValidationError` on the `User` model:
`"User validation failed: <path>: <msg>[, <path>: <msg>…]"`. -/
def validationMessage (errs : List String) : String :=
  "User validation failed: " ++ String.intercalate ", " errs

/-- Storage-layer duplicate-key rejection (Mongo error code 11000), keyed by
which unique index was violated: the `email` index or the sparse unique
`verificationToken` index. -/
inductive DbErr where
  | dupEmail
  | dupToken
deriving DecidableEq

/-- Insert a document, enforcing the storage-layer uniqueness constraints of
the schema (`unique: true` on `email`; `unique: true, sparse: true` on
`verificationToken`). -/
def insertUser (db : List User) (u : User) : Except DbErr (List User) :=
  if db.any (fun v => v.email == u.email) then .error .dupEmail
  else if (match u.verificationToken with
           | some t => db.any (fun v => v.verificationToken == some t)
           | none => false) then .error .dupToken
  else .ok (db ++ [u])

/-- What `user.save()` on a new document can throw. -/
inductive SaveErr where
  | validation (msg : String)
  | dup (e : DbErr)
deriving DecidableEq

/-- `new User({...}); await user.save()` for a fresh document: Mongoose
validates first, then runs the user pre-save hook (hashing — the document is
new, so the password path is modified), then writes, surfacing duplicate-key
conflicts from the storage layer. -/
def saveNewUser (hash : String → String) (db : List User) (u : User) :
    Except SaveErr (List User) :=
  let errs := userValidationErrors u
  if errs.isEmpty then
    match insertUser db (preSave hash none u) with
    | .error e => .error (.dup e)
    | .ok db' => .ok db'
  else .error (.validation (validationMessage errs))

/-- HTTP outcome of the sign-up handler. -/
inductive SignupResponse where
  | badRequest (msg : String)
  | created (msg : String)
  | serverError
deriving DecidableEq

/-- HTTP status code carried by each sign-up response shape
(`res.status(400).json`, `res.status(201).json`, `res.status(500).send`). -/
def SignupResponse.status : SignupResponse → Nat
  | .badRequest _ => 400
  | .created _ => 201
  | .serverError => 500

/-- The `catch` block of the sign-up handler (`server.js`): a Mongoose
`ValidationError` surfaces as 400 with the error's message; a duplicate-key
conflict on the `email` index (`err.code === 11000 && err.keyPattern.email`)
surfaces as the duplicate-email 400; anything else (including a duplicate on
the token index) falls through to 500 `Server Error`. -/
def signupCatch : SaveErr → SignupResponse
  | .validation m => .badRequest m
  | .dup .dupEmail => .badRequest "A user with this email already exists."
  | .dup .dupToken => .serverError

/-- The parsed JSON body of `POST /api/signup`; a missing property is
`none`. -/
structure SignupBody where
  fullName : Option String
  email : Option String
  password : Option String
deriving DecidableEq

/-- JavaScript truthiness test `!x` for an optional string: true when the
property is absent or the empty string. -/
def strFalsy : Option String → Bool
  | none => true
  | some s => s == ""

/-- The `mailOptions` object handed to `transporter.sendMail` (`from` and
`to` are reserved words in Lean, hence `fromAddr`/`toAddr`). -/
structure MailOptions where
  fromAddr : String
  toAddr : String
  subject : String
  html : String
deriving DecidableEq

/-- The `verificationLink` constant of `server.js` line 91.  The source line
is a template literal that was mangled by a markdown/math renderer: it
contains no `${...}` interpolation at all (only escaped braces), so it
evaluates to this fixed string — independent of `FRONTEND_URL` and of the
generated token. -/
def verificationLink : String :=
  "<span class=\"math-inline\">\x7bprocess.env.FRONTEND_URL\x7d/thank-you-verify.html?token=</span>\x7bverificationToken\x7d"

/-- The `html` field of `mailOptions` (`server.js` lines 97–105).  Same
mangling: the template literal holds no `${...}`, so the body is this fixed
string — the text `{user.fullName}` and `{verificationLink}` appear
literally and neither the real name nor any link/token is embedded. -/
def mailHtml : String :=
  "\n                <p>Hello <span class=\"math-inline\">\x7buser.fullName\x7d,</p>\n                <p>Thank you for signing up for Cloudcore!</p>\n<p>Please verify your email address by clicking on the link below:</p>\n<p><a href=\"\x7bverificationLink\x7d\" style=\"background-color: #4c51bf; color: white; padding: 10px 20px; text-decoration: none; border-radius: 5px; display: inline-block;\">Verify My Account</a></p>\n<p>This link will expire in 24 hours.</p>\n<p>If you did not sign up for Cloudcore, please ignore this email.</p>\n<p>Best regards,<br>The Cloudcore Team</p>\n"

/-- The document constructed by `new User({fullName, email, password,
verificationToken})`: the path setters run (`trim` on `fullName`; `trim` +
`lowercase` on `email`), `isVerified` takes its schema default `false`, and
`createdAt` its default `Date.now`. -/
def mkNewUser (fn em pw : String) (rnd : List (Fin 256)) (now : Nat) : User :=
  { fullName := jsTrim fn
    email := emailSetter em
    password := pw
    isVerified := false
    verificationToken := some (bytesToHex rnd)
    createdAt := now }

/-- The `POST /api/signup` handler (`server.js` lines 42–133) up to but not
including the asynchronous mail send: field-presence (JS truthiness) check,
password-length check, email-pattern check, pre-insert duplicate lookup,
token generation, document construction and save, and the catch block.
Returns the HTTP response, the resulting database, and the `mailOptions`
handed to `sendMail` (when the flow reaches it).  `FRONTEND_URL` is not a
parameter because the handler's only use of it sits inside the mangled
(non-interpolating) template literals. -/
def signupCore (hash : String → String) (emailUser : String) (rnd : List (Fin 256))
    (now : Nat) (db : List User) (b : SignupBody) :
    SignupResponse × List User × Option MailOptions :=
  if strFalsy b.fullName || strFalsy b.email || strFalsy b.password then
    (.badRequest "Please enter all fields.", db, none)
  else
    let fn := b.fullName.getD ""
    let em := b.email.getD ""
    let pw := b.password.getD ""
    if pw.length < 8 then
      (.badRequest "Password must be at least 8 characters long.", db, none)
    else if !emailRegexTest em then
      (.badRequest "Please enter a valid email address.", db, none)
    else
      match db.find? (fun v => v.email == emailSetter em) with
      | some _ => (.badRequest "A user with this email already exists.", db, none)
      | none =>
        let newUser := mkNewUser fn em pw rnd now
        match saveNewUser hash db newUser with
        | .error e => (signupCatch e, db, none)
        | .ok db' =>
          (.created "Sign up successful! Please check your email for verification.", db',
           some { fromAddr := emailUser, toAddr := newUser.email,
                  subject := "Verify Your Cloudcore Account", html := mailHtml })

/-- Full observable outcome of a sign-up request, including the console log
produced by the fire-and-forget `sendMail` callback. -/
structure SignupOutcome where
  response : SignupResponse
  db : List User
  mail : Option MailOptions
  log : List String
deriving DecidableEq

/-- The sign-up handler together with the asynchronous mail dispatch:
`mailOk` is the outcome of the single `sendMail` attempt, which only feeds
the callback's `console` logging and never the HTTP response or the
database. -/
def signup (hash : String → String) (emailUser : String) (rnd : List (Fin 256))
    (now : Nat) (mailOk : Bool) (db : List User) (b : SignupBody) : SignupOutcome :=
  let c := signupCore hash emailUser rnd now db b
  { response := c.1
    db := c.2.1
    mail := c.2.2
    log := match c.2.2 with
      | none => []
      | some _ =>
        [if mailOk then "Verification email sent" else "Error sending verification email"] }

/-- HTTP outcome of the verify handler: 400 plain text, a `res.redirect`
(302), or 500 plain text. -/
inductive VerifyResponse where
  | badRequest (body : String)
  | redirect (location : String)
  | serverError (body : String)
deriving DecidableEq

/-- Status code of each verify response shape (`res.redirect` defaults to
302). -/
def VerifyResponse.status : VerifyResponse → Nat
  | .badRequest _ => 400
  | .redirect _ => 302
  | .serverError _ => 500

/-- Replace the first list element satisfying `p` — how `user.save()` on a
document returned by `findOne` writes the mutation back in place. -/
def replaceFirst (p : User → Bool) (u' : User) : List User → List User
  | [] => []
  | u :: rest => if p u then u' :: rest else u :: replaceFirst p u' rest

/-- The `GET /api/verify-email` handler (`server.js` lines 138–176).
`tokenParam` is `req.query.token`: `none` when the parameter is absent, and
`some ""` when the URL carries `?token=` (Express yields the empty string,
which the handler's `if (!token)` treats the same as absent).  On the
success path the loaded document is mutated (`isVerified = true`,
`verificationToken = undefined`) and saved; the pre-save hook sees an
unmodified password and leaves it alone. -/
def verifyEmail (hash : String → String) (frontendUrl : String) (db : List User)
    (tokenParam : Option String) : VerifyResponse × List User :=
  match tokenParam with
  | none => (.badRequest "Verification token missing.", db)
  | some token =>
    if token == "" then (.badRequest "Verification token missing.", db)
    else
      match db.find? (fun u => u.verificationToken == some token) with
      | none => (.badRequest "Invalid or expired verification token.", db)
      | some user =>
        if user.isVerified then
          (.redirect (frontendUrl ++ "/thank-you-verified.html?status=already_verified"), db)
        else
          let user1 := { user with isVerified := true, verificationToken := none }
          let user2 := preSave hash (some user) user1
          (.redirect (frontendUrl ++ "/thank-you-verified.html?status=success"),
           replaceFirst (fun u => u.verificationToken == some token) user2 db)

/-! ### Helper lemmas about the list-backed store -/

theorem findNone_iff {α : Type} (p : α → Bool) (l : List α) :
    l.find? p = none ↔ ∀ v ∈ l, p v = false := by
  induction l with
  | nil => simp [List.find?]
  | cons a l ih =>
    rw [List.find?]
    cases h : p a with
    | true => simp [h]
    | false => simp [h, ih]

theorem find_append_first {α : Type} (p : α → Bool) (pre post : List α) (u : α)
    (hpre : ∀ v ∈ pre, p v = false) (hu : p u = true) :
    (pre ++ u :: post).find? p = some u := by
  induction pre with
  | nil => simp [List.find?, hu]
  | cons a l ih =>
    have ha : p a = false := hpre a (by simp)
    rw [List.cons_append, List.find?, ha]
    exact ih fun v hv => hpre v (by simp [hv])

theorem replaceFirst_append_first (p : User → Bool) (pre post : List User) (u u' : User)
    (hpre : ∀ v ∈ pre, p v = false) (hu : p u = true) :
    replaceFirst p u' (pre ++ u :: post) = pre ++ u' :: post := by
  induction pre with
  | nil => simp [replaceFirst, hu]
  | cons a l ih =>
    have ha : p a = false := hpre a (by simp)
    have ih' := ih fun v hv => hpre v (by simp [hv])
    simp [replaceFirst, ha, ih']

/-! ### Helper lemmas about hex encoding -/

theorem hexDigit_pair_isHex :
    ∀ b : Fin 256, (isHexChar (hexDigit (b.val / 16)) && isHexChar (hexDigit (b.val % 16))) = true := by
  decide

theorem bytesToHex_length (bs : List (Fin 256)) : (bytesToHex bs).length = 2 * bs.length := by
  induction bs with
  | nil => rfl
  | cons b bs ih =>
    simp only [bytesToHex, String.length, List.foldr] at ih ⊢
    simp [ih]
    omega

theorem bytesToHex_all_hex (bs : List (Fin 256)) : (bytesToHex bs).data.all isHexChar = true := by
  induction bs with
  | nil => rfl
  | cons b bs ih =>
    simp only [bytesToHex, List.foldr, List.all_cons] at ih ⊢
    have h := hexDigit_pair_isHex b
    simp only [Bool.and_eq_true] at h
    simp [h.1, h.2, ih]

/-! ### The sign-up success path -/

/-- Core lemma: with truthy fields, an 8+-character password, an email that
matches the pattern both raw and after normalization, a non-blank trimmed
full name, no stored user under the same (normalized) email, and a fresh
token, `signupCore` reaches the 201 path: the hashed record is appended and
the mail options are handed to the transporter. -/
theorem signupCore_success (hash : String → String) (emailUser : String)
    (rnd : List (Fin 256)) (now : Nat) (db : List User) (fn em pw : String)
    (hfn : fn ≠ "") (hfnt : jsTrim fn ≠ "")
    (hlen : ¬ pw.length < 8)
    (hre : emailRegexTest em = true) (hre2 : emailRegexTest (emailSetter em) = true)
    (hnodup : ∀ v ∈ db, v.email ≠ emailSetter em)
    (hfresh : ∀ v ∈ db, v.verificationToken ≠ some (bytesToHex rnd)) :
    signupCore hash emailUser rnd now db ⟨some fn, some em, some pw⟩ =
      (.created "Sign up successful! Please check your email for verification.",
       db ++ [{ mkNewUser fn em pw rnd now with password := hash pw }],
       some ⟨emailUser, emailSetter em, "Verify Your Cloudcore Account", mailHtml⟩) := by
  have hemne : em ≠ "" := by
    intro h; rw [h] at hre; exact absurd hre (by decide)
  have hemne2 : emailSetter em ≠ "" := by
    intro h; rw [h] at hre2; exact absurd hre2 (by decide)
  have hpwne : pw ≠ "" := by
    intro h; rw [h] at hlen; exact hlen (by decide)
  have hfind : db.find? (fun v => v.email == emailSetter em) = none := by
    rw [findNone_iff]; intro v hv; simpa using hnodup v hv
  have hanyE : db.any (fun v => v.email == emailSetter em) = false := by
    rw [Bool.eq_false_iff]
    intro h
    obtain ⟨v, hv, hp⟩ := List.any_eq_true.mp h
    exact hnodup v hv (by simpa using hp)
  have hanyT : db.any (fun v => v.verificationToken == some (bytesToHex rnd)) = false := by
    rw [Bool.eq_false_iff]
    intro h
    obtain ⟨v, hv, hp⟩ := List.any_eq_true.mp h
    exact hfresh v hv (by simpa using hp)
  simp [signupCore, strFalsy, saveNewUser, insertUser, preSave, mkNewUser,
    userValidationErrors, validationMessage, beq_iff_eq, hfn, hemne, hpwne, hfnt,
    hemne2, hre, hre2, hlen, hfind, hanyE, hanyT]


/-! ### The verify success path -/

/-- Core lemma: a verification request with a non-empty token held by an
unverified record (and not by any earlier record in scan order) updates that
record in place — `isVerified := true`, `verificationToken` cleared to
absent, every other field (including the stored password hash) untouched —
and redirects to the success page. -/
theorem verifyEmail_success_eq (hash : String → String) (fu T : String)
    (pre post : List User) (u : User)
    (hT : T ≠ "") (htok : u.verificationToken = some T) (hver : u.isVerified = false)
    (hpre : ∀ v ∈ pre, v.verificationToken ≠ some T) :
    verifyEmail hash fu (pre ++ u :: post) (some T) =
      (.redirect (fu ++ "/thank-you-verified.html?status=success"),
       pre ++ { u with isVerified := true, verificationToken := none } :: post) := by
  have hfind : (pre ++ u :: post).find? (fun v => v.verificationToken == some T) = some u :=
    find_append_first _ pre post u
      (fun v hv => by simpa using hpre v hv) (by simp [htok])
  have hrepl : replaceFirst (fun v => v.verificationToken == some T)
      { u with isVerified := true, verificationToken := none } (pre ++ u :: post) =
      pre ++ { u with isVerified := true, verificationToken := none } :: post :=
    replaceFirst_append_first _ pre post u _
      (fun v hv => by simpa using hpre v hv) (by simp [htok])
  simp [verifyEmail, hT, hfind, hver, preSave, hrepl]

/-- Does `needle` occur as a contiguous run inside `hay`?  (Used to state
that the generated token never appears in the mangled link/email body.) -/
def containsSeq (needle hay : List Char) : Bool :=
  match hay with
  | [] => needle.isEmpty
  | _ :: t => (List.isPrefixOf needle hay || containsSeq needle t)

/-! ### Claims -/

/-- C1: for every stored user record that is unverified and holds
verification token `T` (a real token: non-empty, per the data model 64 hex
characters, and held by no earlier record, tokens being unique), a
`GET /api/verify-email` request with `token=T` sets `isVerified` to true,
sets `verificationToken` to absent (`none`, not the empty string), persists
the updated record in place, and responds with a 302 redirect to
`FRONTEND_URL/thank-you-verified.html?status=success`. -/
theorem verify_valid_token_success (hash : String → String) (fu T : String)
    (pre post : List User) (u : User)
    (hT : T ≠ "") (htok : u.verificationToken = some T) (hver : u.isVerified = false)
    (hpre : ∀ v ∈ pre, v.verificationToken ≠ some T) :
    verifyEmail hash fu (pre ++ u :: post) (some T) =
      (.redirect (fu ++ "/thank-you-verified.html?status=success"),
       pre ++ { u with isVerified := true, verificationToken := none } :: post) ∧
    (VerifyResponse.redirect (fu ++ "/thank-you-verified.html?status=success")).status = 302 :=
  ⟨verifyEmail_success_eq hash fu T pre post u hT htok hver hpre, rfl⟩

/-- Witness for C1 at a concrete record and token. -/
theorem verify_valid_token_success_witness :
    ("tok1" ≠ "" ∧
     (⟨"Ann", "ann@x.com", "hash0123", false, some "tok1", 7⟩ : User).isVerified = false) ∧
    verifyEmail (fun s => s) "http://127.0.0.1:5500"
        ([] ++ (⟨"Ann", "ann@x.com", "hash0123", false, some "tok1", 7⟩ : User) :: [])
        (some "tok1") =
      (.redirect "http://127.0.0.1:5500/thank-you-verified.html?status=success",
       [] ++ (⟨"Ann", "ann@x.com", "hash0123", true, none, 7⟩ : User) :: []) :=
  ⟨⟨by decide, rfl⟩,
   (verify_valid_token_success (fun s => s) "http://127.0.0.1:5500" "tok1" [] []
      ⟨"Ann", "ann@x.com", "hash0123", false, some "tok1", 7⟩
      (by decide) rfl rfl (by simp)).1⟩

/-- C2 counterexample: with one unverified user holding token `tok1`, the
first verification request succeeds, but repeating the exact same request
yields the 400 invalid-token response — not the `already_verified`
redirect the claim states (the token was cleared, so the lookup misses). -/
theorem verify_repeat_counterexample :
    (verifyEmail (fun s => s) "F"
        [⟨"Ann", "ann@x.com", "hash0123", false, some "tok1", 0⟩] (some "tok1")).1 =
      .redirect "F/thank-you-verified.html?status=success" ∧
    verifyEmail (fun s => s) "F"
        (verifyEmail (fun s => s) "F"
          [⟨"Ann", "ann@x.com", "hash0123", false, some "tok1", 0⟩] (some "tok1")).2
        (some "tok1") =
      (.badRequest "Invalid or expired verification token.",
       [⟨"Ann", "ann@x.com", "hash0123", true, none, 0⟩]) ∧
    VerifyResponse.badRequest "Invalid or expired verification token." ≠
      VerifyResponse.redirect "F/thank-you-verified.html?status=already_verified" := by
  decide

/-- C2 as amended: after a verification request with a valid, unused token
`T` succeeds, repeating the exact same request responds 400 "Invalid or
expired verification token." (the success cleared the token, so the lookup
misses; the `already_verified` redirect is not reachable this way). -/
theorem verify_repeat_invalid_token (hash : String → String) (fu T : String)
    (pre post : List User) (u : User)
    (hT : T ≠ "") (htok : u.verificationToken = some T) (hver : u.isVerified = false)
    (hpre : ∀ v ∈ pre, v.verificationToken ≠ some T)
    (hpost : ∀ v ∈ post, v.verificationToken ≠ some T) :
    (verifyEmail hash fu (pre ++ u :: post) (some T)).1 =
      .redirect (fu ++ "/thank-you-verified.html?status=success") ∧
    verifyEmail hash fu (verifyEmail hash fu (pre ++ u :: post) (some T)).2 (some T) =
      (.badRequest "Invalid or expired verification token.",
       (verifyEmail hash fu (pre ++ u :: post) (some T)).2) := by
  have h1 := verifyEmail_success_eq hash fu T pre post u hT htok hver hpre
  rw [h1]
  refine ⟨rfl, ?_⟩
  have hfind : (pre ++ { u with isVerified := true, verificationToken := none } :: post).find?
      (fun v => v.verificationToken == some T) = none := by
    rw [findNone_iff]
    intro v hv
    rcases List.mem_append.mp hv with h | h
    · simpa using hpre v h
    · rcases List.mem_cons.mp h with h | h
      · subst h; simp
      · simpa using hpost v h
  simp [verifyEmail, hT, hfind]

/-- Witness for the amended C2 at a concrete record and token. -/
theorem verify_repeat_invalid_token_witness :
    ("tokW" ≠ "") ∧
    verifyEmail (fun s => s) "F"
        (verifyEmail (fun s => s) "F"
          ([] ++ (⟨"Bob", "bob@x.com", "hash0123", false, some "tokW", 1⟩ : User) :: [])
          (some "tokW")).2 (some "tokW") =
      (.badRequest "Invalid or expired verification token.",
       (verifyEmail (fun s => s) "F"
         ([] ++ (⟨"Bob", "bob@x.com", "hash0123", false, some "tokW", 1⟩ : User) :: [])
         (some "tokW")).2) :=
  ⟨by decide,
   (verify_repeat_invalid_token (fun s => s) "F" "tokW" [] []
      ⟨"Bob", "bob@x.com", "hash0123", false, some "tokW", 1⟩
      (by decide) rfl rfl (by simp) (by simp)).2⟩

/-- C5 counterexample: the request `GET /api/verify-email?token=` carries a
*present* token parameter whose value is the empty string (Express yields
`''`); no user record holds it, yet the handler answers with the
missing-token message, not the invalid-token message the claim requires
(JS `!token` is true for the empty string). -/
theorem verify_empty_token_counterexample :
    (∀ v ∈ ([] : List User), v.verificationToken ≠ some "") ∧
    verifyEmail (fun s => s) "F" [] (some "") =
      (.badRequest "Verification token missing.", []) ∧
    VerifyResponse.badRequest "Verification token missing." ≠
      VerifyResponse.badRequest "Invalid or expired verification token." := by
  decide

/-- C5 as amended: the handler responds 400 "Verification token missing."
whenever the token parameter is absent *or empty*, and 400 "Invalid or
expired verification token." whenever the token is present, non-empty, and
held by no user record (in particular any token already cleared by a
successful verification); the handler consults no clock, so no time-based
expiry is ever checked. -/
theorem verify_missing_and_unknown_token (hash : String → String) (fu t : String)
    (db : List User)
    (ht : t ≠ "") (hnone : ∀ v ∈ db, v.verificationToken ≠ some t) :
    verifyEmail hash fu db none = (.badRequest "Verification token missing.", db) ∧
    verifyEmail hash fu db (some "") = (.badRequest "Verification token missing.", db) ∧
    verifyEmail hash fu db (some t) =
      (.badRequest "Invalid or expired verification token.", db) ∧
    (VerifyResponse.badRequest "Verification token missing.").status = 400 ∧
    (VerifyResponse.badRequest "Invalid or expired verification token.").status = 400 := by
  have hfind : db.find? (fun v => v.verificationToken == some t) = none := by
    rw [findNone_iff]; intro v hv; simpa using hnone v hv
  exact ⟨rfl, by simp [verifyEmail], by simp [verifyEmail, ht, hfind], rfl, rfl⟩

/-- Witness for the amended C5 at a concrete store and token. -/
theorem verify_missing_and_unknown_token_witness :
    ("zz" ≠ "") ∧
    verifyEmail (fun s => s) "F" [] none = (.badRequest "Verification token missing.", []) ∧
    verifyEmail (fun s => s) "F" [] (some "zz") =
      (.badRequest "Invalid or expired verification token.", []) :=
  ⟨by decide,
   (verify_missing_and_unknown_token (fun s => s) "F" "zz" [] (by decide) (by simp)).1,
   (verify_missing_and_unknown_token (fun s => s) "F" "zz" [] (by decide) (by simp)).2.2.1⟩

/-- C6: a save in which the password was not changed leaves the stored hash
untouched (the `isModified('password')` guard skips hashing), and in
particular the verification step persists the record with `isVerified` and
`verificationToken` updated while `password`, `fullName`, `email` and
`createdAt` all keep their stored values. -/
theorem save_unmodified_password_frame (hash : String → String) (fu T : String)
    (pre post : List User) (u o cur : User)
    (hpw : o.password = cur.password)
    (hT : T ≠ "") (htok : u.verificationToken = some T) (hver : u.isVerified = false)
    (hpre : ∀ v ∈ pre, v.verificationToken ≠ some T) :
    preSave hash (some o) cur = cur ∧
    verifyEmail hash fu (pre ++ u :: post) (some T) =
      (.redirect (fu ++ "/thank-you-verified.html?status=success"),
       pre ++ { u with isVerified := true, verificationToken := none } :: post) ∧
    ({ u with isVerified := true, verificationToken := none } : User).password = u.password ∧
    ({ u with isVerified := true, verificationToken := none } : User).fullName = u.fullName ∧
    ({ u with isVerified := true, verificationToken := none } : User).email = u.email ∧
    ({ u with isVerified := true, verificationToken := none } : User).createdAt = u.createdAt := by
  refine ⟨?_, verifyEmail_success_eq hash fu T pre post u hT htok hver hpre, rfl, rfl, rfl, rfl⟩
  simp [preSave, hpw]

/-- Witness for C6 at concrete records. -/
theorem save_unmodified_password_frame_witness :
    ((⟨"Old", "o@x.com", "samehash", true, none, 3⟩ : User).password =
      (⟨"New", "n@x.com", "samehash", false, some "q", 4⟩ : User).password) ∧
    preSave (fun s => String.append "$" s) (some ⟨"Old", "o@x.com", "samehash", true, none, 3⟩)
        ⟨"New", "n@x.com", "samehash", false, some "q", 4⟩ =
      ⟨"New", "n@x.com", "samehash", false, some "q", 4⟩ :=
  ⟨rfl,
   (save_unmodified_password_frame (fun s => String.append "$" s) "F" "tk" [] []
      ⟨"Eve", "e@x.com", "h1234567", false, some "tk", 0⟩
      ⟨"Old", "o@x.com", "samehash", true, none, 3⟩
      ⟨"New", "n@x.com", "samehash", false, some "q", 4⟩
      rfl (by decide) rfl rfl (by simp)).1⟩

theorem find_append_none {α : Type} (p : α → Bool) (l₁ l₂ : List α)
    (h : l₁.find? p = none) : (l₁ ++ l₂).find? p = l₂.find? p := by
  induction l₁ with
  | nil => rfl
  | cons a l ih =>
    rw [List.find?] at h
    cases ha : p a with
    | true => rw [ha] at h; exact absurd h (by simp)
    | false =>
      rw [ha] at h
      rw [List.cons_append, List.find?, ha]
      exact ih h

/-- C3 counterexample: a sign-up whose `fullName` is the single space `" "`
has all three fields present (and truthy), an 8+-character password, a
pattern-matching email, and an empty store — yet the response is the
schema-validation 400, not 201: the claim as stated fails on whitespace-only
names (the handler's presence check passes but the entity layer's
required-after-trim check rejects). -/
theorem signup_whitespace_counterexample :
    ((" " : String) ≠ "" ∧ 8 ≤ ("longenough" : String).length ∧
     emailRegexTest "ann@x.com" = true) ∧
    (signup (fun s => String.append "$2b$10$" s) "noreply@x.com"
        (List.replicate 32 (170 : Fin 256)) 0 true []
        ⟨some " ", some "ann@x.com", some "longenough"⟩).response =
      .badRequest "User validation failed: fullName: Full name is required" ∧
    (signup (fun s => String.append "$2b$10$" s) "noreply@x.com"
        (List.replicate 32 (170 : Fin 256)) 0 true []
        ⟨some " ", some "ann@x.com", some "longenough"⟩).response ≠
      .created "Sign up successful! Please check your email for verification." := by
  decide

/-- C3 as amended: for every sign-up input with all three fields present
(truthy), `fullName` non-blank after trimming, password length ≥ 8, email
matching the basic pattern (also after trim/lowercase normalization), no
stored user under that (normalized) email, and the freshly generated token
colliding with no stored token, `POST /api/signup` responds 201 and a
subsequent lookup by that email returns a record with `isVerified = false`,
a present verification token of 64 hex characters (32 random bytes
hex-encoded), and a stored password equal to the bcrypt hash — hence (bcrypt
output never being its input) not equal to the submitted plaintext. -/
theorem signup_valid_creates_unverified (hash : String → String) (emailUser : String)
    (rnd : List (Fin 256)) (now : Nat) (mailOk : Bool) (db : List User) (fn em pw : String)
    (hfn : fn ≠ "") (hfnt : jsTrim fn ≠ "") (hlen : 8 ≤ pw.length)
    (hre : emailRegexTest em = true) (hre2 : emailRegexTest (emailSetter em) = true)
    (hnodup : ∀ v ∈ db, v.email ≠ emailSetter em)
    (hfresh : ∀ v ∈ db, v.verificationToken ≠ some (bytesToHex rnd))
    (hrnd : rnd.length = 32) (hhash : hash pw ≠ pw) :
    (signup hash emailUser rnd now mailOk db ⟨some fn, some em, some pw⟩).response =
      .created "Sign up successful! Please check your email for verification." ∧
    (SignupResponse.created "Sign up successful! Please check your email for verification.").status = 201 ∧
    (signup hash emailUser rnd now mailOk db ⟨some fn, some em, some pw⟩).db.find?
        (fun v => v.email == emailSetter em) =
      some { mkNewUser fn em pw rnd now with password := hash pw } ∧
    ({ mkNewUser fn em pw rnd now with password := hash pw }).isVerified = false ∧
    ({ mkNewUser fn em pw rnd now with password := hash pw }).verificationToken =
      some (bytesToHex rnd) ∧
    (bytesToHex rnd).length = 64 ∧
    (bytesToHex rnd).data.all isHexChar = true ∧
    ({ mkNewUser fn em pw rnd now with password := hash pw }).password ≠ pw := by
  have hlen' : ¬ pw.length < 8 := by omega
  have hcore := signupCore_success hash emailUser rnd now db fn em pw hfn hfnt hlen' hre
    hre2 hnodup hfresh
  have hresp : (signup hash emailUser rnd now mailOk db ⟨some fn, some em, some pw⟩).response =
      .created "Sign up successful! Please check your email for verification." := by
    simp [signup, hcore]
  have hdb : (signup hash emailUser rnd now mailOk db ⟨some fn, some em, some pw⟩).db =
      db ++ [{ mkNewUser fn em pw rnd now with password := hash pw }] := by
    simp [signup, hcore]
  have hfinddb : db.find? (fun v => v.email == emailSetter em) = none := by
    rw [findNone_iff]; intro v hv; simpa using hnodup v hv
  refine ⟨hresp, rfl, ?_, rfl, rfl, by rw [bytesToHex_length, hrnd], bytesToHex_all_hex rnd, ?_⟩
  · rw [hdb, find_append_none _ _ _ hfinddb]
    simp [List.find?, mkNewUser]
  · simpa [mkNewUser] using hhash

/-- Witness for the amended C3 at a concrete request. -/
theorem signup_valid_creates_unverified_witness :
    (("Ann" : String) ≠ "" ∧ jsTrim "Ann" ≠ "" ∧
     8 ≤ ("longenough" : String).length ∧ emailRegexTest "ann@x.com" = true ∧
     (List.replicate 32 (170 : Fin 256)).length = 32) ∧
    (signup (fun s => String.append "$2b$10$" s) "noreply@x.com"
        (List.replicate 32 (170 : Fin 256)) 0 true []
        ⟨some "Ann", some "ann@x.com", some "longenough"⟩).response =
      .created "Sign up successful! Please check your email for verification." :=
  ⟨⟨by decide, by decide, by decide, by decide, by decide⟩,
   (signup_valid_creates_unverified (fun s => String.append "$2b$10$" s) "noreply@x.com"
      (List.replicate 32 (170 : Fin 256)) 0 true [] "Ann" "ann@x.com" "longenough"
      (by decide) (by decide) (by decide) (by decide) (by decide)
      (by simp) (by simp) (by decide) (by decide)).1⟩

/-- C4: a sign-up whose (normalized) email is already held by a persisted
user is rejected 400 "A user with this email already exists." — both via the
pre-insert lookup (first conjunct: the full handler on a store containing
the email) and via the storage-layer duplicate-key path when the lookup
misses due to a race (second conjunct: the uniqueness constraint rejects the
insert with a duplicate-email conflict, and the handler's catch block maps
exactly that conflict to the same 400). -/
theorem signup_duplicate_email_rejected (hash : String → String) (emailUser : String)
    (rnd : List (Fin 256)) (now : Nat) (mailOk : Bool) (db db2 : List User)
    (fn em pw : String) (w : User)
    (hfn : fn ≠ "") (hem : em ≠ "") (hpw : pw ≠ "")
    (hlen : ¬ pw.length < 8) (hre : emailRegexTest em = true)
    (hdup : ∃ v ∈ db, v.email = emailSetter em)
    (hdup2 : ∃ v ∈ db2, v.email = w.email) :
    ((signup hash emailUser rnd now mailOk db ⟨some fn, some em, some pw⟩).response =
       .badRequest "A user with this email already exists." ∧
     (SignupResponse.badRequest "A user with this email already exists.").status = 400) ∧
    (insertUser db2 w = .error .dupEmail ∧
     signupCatch (.dup .dupEmail) = .badRequest "A user with this email already exists.") := by
  obtain ⟨v0, hv0, hv0e⟩ := hdup
  have hfind : db.find? (fun v => v.email == emailSetter em) ≠ none := by
    rw [Ne, findNone_iff]
    intro h
    exact absurd (h v0 hv0) (by simp [hv0e])
  constructor
  · cases h : db.find? (fun v => v.email == emailSetter em) with
    | none => exact absurd h hfind
    | some u0 =>
      refine ⟨?_, rfl⟩
      simp [signup, signupCore, strFalsy, hfn, hem, hpw, hlen, hre, h]
  · have hany : db2.any (fun v => v.email == w.email) = true := by
      obtain ⟨v2, hv2, he2⟩ := hdup2
      exact List.any_eq_true.mpr ⟨v2, hv2, by simp [he2]⟩
    exact ⟨by simp [insertUser, hany], rfl⟩

/-- Witness for C4: concrete store already holding the email. -/
theorem signup_duplicate_email_rejected_witness :
    ((⟨"Ann", "ann@x.com", "h2345678", false, none, 0⟩ : User).email = emailSetter "ann@x.com") ∧
    (signup (fun s => String.append "$2b$10$" s) "noreply@x.com"
        (List.replicate 32 (170 : Fin 256)) 0 true
        [⟨"Ann", "ann@x.com", "h2345678", false, none, 0⟩]
        ⟨some "Bob", some "ann@x.com", some "longenough"⟩).response =
      .badRequest "A user with this email already exists." :=
  ⟨by decide,
   ((signup_duplicate_email_rejected (fun s => String.append "$2b$10$" s) "noreply@x.com"
      (List.replicate 32 (170 : Fin 256)) 0 true
      [⟨"Ann", "ann@x.com", "h2345678", false, none, 0⟩]
      [⟨"Zed", "z@x.com", "h2345678", false, none, 0⟩] "Bob" "ann@x.com" "longenough"
      ⟨"Z", "z@x.com", "hpw55555", false, none, 1⟩
      (by decide) (by decide) (by decide) (by decide) (by decide)
      ⟨⟨"Ann", "ann@x.com", "h2345678", false, none, 0⟩, by simp, by decide⟩
      ⟨⟨"Zed", "z@x.com", "h2345678", false, none, 0⟩, by simp, rfl⟩).1).1⟩

/-- C7: the HTTP response, the stored data, and the mail options of a
sign-up request do not depend on the mail-delivery outcome at all (it only
feeds the fire-and-forget callback's log), and a request that passes
validation and whose insert succeeds is answered 201 for every mail
outcome. -/
theorem signup_mail_outcome_independent (hash : String → String) (emailUser : String)
    (rnd : List (Fin 256)) (now : Nat) (mailOk1 mailOk2 : Bool) (db : List User)
    (b : SignupBody) (fn em pw : String)
    (hfn : fn ≠ "") (hfnt : jsTrim fn ≠ "") (hlen : ¬ pw.length < 8)
    (hre : emailRegexTest em = true) (hre2 : emailRegexTest (emailSetter em) = true)
    (hnodup : ∀ v ∈ db, v.email ≠ emailSetter em)
    (hfresh : ∀ v ∈ db, v.verificationToken ≠ some (bytesToHex rnd)) :
    ((signup hash emailUser rnd now mailOk1 db b).response =
       (signup hash emailUser rnd now mailOk2 db b).response ∧
     (signup hash emailUser rnd now mailOk1 db b).db =
       (signup hash emailUser rnd now mailOk2 db b).db ∧
     (signup hash emailUser rnd now mailOk1 db b).mail =
       (signup hash emailUser rnd now mailOk2 db b).mail) ∧
    ∀ mo : Bool, (signup hash emailUser rnd now mo db ⟨some fn, some em, some pw⟩).response =
      .created "Sign up successful! Please check your email for verification." := by
  refine ⟨⟨rfl, rfl, rfl⟩, fun mo => ?_⟩
  simp [signup,
    signupCore_success hash emailUser rnd now db fn em pw hfn hfnt hlen hre hre2 hnodup hfresh]

/-- Witness for C7: concrete request, mail failing vs succeeding. -/
theorem signup_mail_outcome_independent_witness :
    (signup (fun s => String.append "$2b$10$" s) "noreply@x.com"
       (List.replicate 32 (170 : Fin 256)) 0 true []
       ⟨some "Ann", some "ann@x.com", some "longenough"⟩).response =
      (signup (fun s => String.append "$2b$10$" s) "noreply@x.com"
       (List.replicate 32 (170 : Fin 256)) 0 false []
       ⟨some "Ann", some "ann@x.com", some "longenough"⟩).response ∧
    (signup (fun s => String.append "$2b$10$" s) "noreply@x.com"
       (List.replicate 32 (170 : Fin 256)) 0 false []
       ⟨some "Ann", some "ann@x.com", some "longenough"⟩).response =
      .created "Sign up successful! Please check your email for verification." :=
  ⟨(signup_mail_outcome_independent (fun s => String.append "$2b$10$" s) "noreply@x.com"
      (List.replicate 32 (170 : Fin 256)) 0 true false []
      ⟨some "Ann", some "ann@x.com", some "longenough"⟩ "Ann" "ann@x.com" "longenough"
      (by decide) (by decide) (by decide) (by decide) (by decide)
      (by simp) (by simp)).1.1,
   (signup_mail_outcome_independent (fun s => String.append "$2b$10$" s) "noreply@x.com"
      (List.replicate 32 (170 : Fin 256)) 0 true false []
      ⟨some "Ann", some "ann@x.com", some "longenough"⟩ "Ann" "ann@x.com" "longenough"
      (by decide) (by decide) (by decide) (by decide) (by decide)
      (by simp) (by simp)).2 false⟩

/-- C9: sign-up password length boundary.  With all fields present (truthy),
a 7-character password is rejected 400 "Password must be at least 8
characters long."; an 8-character password passes the length check and — the
other fields being valid and the store fresh — the request is accepted with
201. -/
theorem signup_password_length_boundary (hash : String → String) (emailUser : String)
    (rnd : List (Fin 256)) (now : Nat) (mailOk : Bool) (db : List User)
    (fn em pw7 pw8 : String)
    (hfn : fn ≠ "") (hem : em ≠ "") (h7 : pw7.length = 7)
    (hfnt : jsTrim fn ≠ "") (h8 : pw8.length = 8)
    (hre : emailRegexTest em = true) (hre2 : emailRegexTest (emailSetter em) = true)
    (hnodup : ∀ v ∈ db, v.email ≠ emailSetter em)
    (hfresh : ∀ v ∈ db, v.verificationToken ≠ some (bytesToHex rnd)) :
    ((signup hash emailUser rnd now mailOk db ⟨some fn, some em, some pw7⟩).response =
       .badRequest "Password must be at least 8 characters long." ∧
     (SignupResponse.badRequest "Password must be at least 8 characters long.").status = 400) ∧
    (signup hash emailUser rnd now mailOk db ⟨some fn, some em, some pw8⟩).response =
      .created "Sign up successful! Please check your email for verification." := by
  have hpw7 : pw7 ≠ "" := by
    intro h; rw [h] at h7; exact absurd h7 (by decide)
  have hlt7 : pw7.length < 8 := by omega
  have hlen8 : ¬ pw8.length < 8 := by omega
  refine ⟨⟨?_, rfl⟩, ?_⟩
  · simp [signup, signupCore, strFalsy, hfn, hem, hpw7, hlt7]
  · simp [signup,
      signupCore_success hash emailUser rnd now db fn em pw8 hfn hfnt hlen8 hre hre2
        hnodup hfresh]

/-- Witness for C9 with passwords "seven77" (length 7) and "eight888"
(length 8). -/
theorem signup_password_length_boundary_witness :
    (("seven77" : String).length = 7 ∧ ("eight888" : String).length = 8) ∧
    (signup (fun s => String.append "$2b$10$" s) "noreply@x.com"
        (List.replicate 32 (170 : Fin 256)) 0 true []
        ⟨some "Ann", some "ann@x.com", some "seven77"⟩).response =
      .badRequest "Password must be at least 8 characters long." ∧
    (signup (fun s => String.append "$2b$10$" s) "noreply@x.com"
        (List.replicate 32 (170 : Fin 256)) 0 true []
        ⟨some "Ann", some "ann@x.com", some "eight888"⟩).response =
      .created "Sign up successful! Please check your email for verification." :=
  ⟨⟨by decide, by decide⟩,
   ((signup_password_length_boundary (fun s => String.append "$2b$10$" s) "noreply@x.com"
      (List.replicate 32 (170 : Fin 256)) 0 true [] "Ann" "ann@x.com" "seven77" "eight888"
      (by decide) (by decide) (by decide) (by decide) (by decide) (by decide) (by decide)
      (by simp) (by simp)).1).1,
   (signup_password_length_boundary (fun s => String.append "$2b$10$" s) "noreply@x.com"
      (List.replicate 32 (170 : Fin 256)) 0 true [] "Ann" "ann@x.com" "seven77" "eight888"
      (by decide) (by decide) (by decide) (by decide) (by decide) (by decide) (by decide)
      (by simp) (by simp)).2⟩

/-- C10: a sign-up whose `fullName` is non-empty but whitespace-only passes
the handler's truthiness presence check, reaches the entity layer, and is
rejected 400 with the schema's required-after-trim message (wrapped in the
Mongoose validation-error envelope) — not with "Please enter all
fields.". -/
theorem signup_whitespace_fullname_schema_error (hash : String → String)
    (emailUser : String) (rnd : List (Fin 256)) (now : Nat) (mailOk : Bool)
    (db : List User) (fn em pw : String)
    (hfn : fn ≠ "") (hblank : jsTrim fn = "")
    (hlen : ¬ pw.length < 8)
    (hre : emailRegexTest em = true) (hre2 : emailRegexTest (emailSetter em) = true)
    (hnodup : ∀ v ∈ db, v.email ≠ emailSetter em) :
    (signup hash emailUser rnd now mailOk db ⟨some fn, some em, some pw⟩).response =
      .badRequest "User validation failed: fullName: Full name is required" ∧
    (SignupResponse.badRequest
      "User validation failed: fullName: Full name is required").status = 400 ∧
    ("User validation failed: fullName: Full name is required" : String) ≠
      "Please enter all fields." := by
  have hemne : em ≠ "" := by
    intro h; rw [h] at hre; exact absurd hre (by decide)
  have hemne2 : emailSetter em ≠ "" := by
    intro h; rw [h] at hre2; exact absurd hre2 (by decide)
  have hpwne : pw ≠ "" := by
    intro h; rw [h] at hlen; exact hlen (by decide)
  have hfind : db.find? (fun v => v.email == emailSetter em) = none := by
    rw [findNone_iff]; intro v hv; simpa using hnodup v hv
  have herrs : userValidationErrors (mkNewUser fn em pw rnd now) =
      ["fullName: Full name is required"] := by
    simp [userValidationErrors, mkNewUser, hblank, hemne2, hre2, hpwne, hlen]
  have hmsg : validationMessage ["fullName: Full name is required"] =
      "User validation failed: fullName: Full name is required" := by decide
  have hsave : saveNewUser hash db (mkNewUser fn em pw rnd now) =
      .error (.validation "User validation failed: fullName: Full name is required") := by
    simp [saveNewUser, herrs, hmsg]
  refine ⟨?_, rfl, by decide⟩
  simp [signup, signupCore, strFalsy, hfn, hemne, hpwne, hlen, hre, hfind, hsave, signupCatch]

/-- Witness for C10 with `fullName = " "`. -/
theorem signup_whitespace_fullname_schema_error_witness :
    ((" " : String) ≠ "" ∧ jsTrim " " = "") ∧
    (signup (fun s => String.append "$2b$10$" s) "noreply@x.com"
        (List.replicate 32 (170 : Fin 256)) 0 true []
        ⟨some " ", some "ann@x.com", some "longenough"⟩).response =
      .badRequest "User validation failed: fullName: Full name is required" :=
  ⟨⟨by decide, by decide⟩,
   (signup_whitespace_fullname_schema_error (fun s => String.append "$2b$10$" s)
      "noreply@x.com" (List.replicate 32 (170 : Fin 256)) 0 true [] " " "ann@x.com"
      "longenough" (by decide) (by decide) (by decide) (by decide) (by decide)
      (by simp)).1⟩

/-- C8 (code bug): the verification link is NOT built from `FRONTEND_URL`
and the token.  The source line is a mangled template literal with no
interpolation, so the link is a fixed string; with the documented
configuration `FRONTEND_URL = http://127.0.0.1:5500` and the fresh token
`aa…a` (32 bytes `0xaa` hex-encoded), the link differs from the value the
claim requires, the token occurs nowhere in the link, and the email body
handed to the transporter is the fixed `mailHtml` in which the token occurs
nowhere either. -/
theorem verification_link_mangled_bug :
    verificationLink ≠
      "http://127.0.0.1:5500/thank-you-verify.html?token=" ++
        bytesToHex (List.replicate 32 (170 : Fin 256)) ∧
    containsSeq (bytesToHex (List.replicate 32 (170 : Fin 256))).data
      verificationLink.data = false ∧
    containsSeq (bytesToHex (List.replicate 32 (170 : Fin 256))).data mailHtml.data = false ∧
    (signup (fun s => String.append "$2b$10$" s) "noreply@x.com"
        (List.replicate 32 (170 : Fin 256)) 0 true []
        ⟨some "Ann", some "ann@x.com", some "longenough"⟩).mail =
      some ⟨"noreply@x.com", "ann@x.com", "Verify Your Cloudcore Account", mailHtml⟩ := by
  decide
